import Mathlib

/-
  Verification of the risk-scoring and adaptive blacklist engine
  (src/js/utils.js `blacklistSystem`, src/js/fragment-handler.js
  `detectAutomation`) against its natural-language specification.

  The JavaScript is shallowly embedded: machine arithmetic of the host
  (32-bit ToInt32/ToUint32 coercions used by `<<`, `&`, `>>> 0`) is made
  explicit over `Int`/`Nat`; `localStorage` and the mutable fields of the
  `blacklistSystem` object become an explicit `LedgerState`; a throwing
  storage primitive is an `Except` and each `try/catch` of the source is
  the surrounding `match`.
-/

namespace MSI

/-! ## JS string and number primitives -/

/-- Charwise lower-casing, modelling `String.prototype.toLowerCase` on the
ASCII identity strings the engine inspects. -/
def jsToLower (s : String) : String :=
  String.mk (s.data.map Char.toLower)

/-- Test whether the first character list is a leading segment of the second. -/
def charsPrefixOf : List Char → List Char → Bool
  | [], _ => true
  | _ :: _, [] => false
  | a :: as, b :: bs => a = b && charsPrefixOf as bs

/-- Infix test on character lists. -/
def charsInfix (needle : List Char) : List Char → Bool
  | [] => needle.isEmpty
  | h :: t => charsPrefixOf needle (h :: t) || charsInfix needle t

/-- Substring test, modelling `haystack.includes(needle)`. -/
def jsIncludes (haystack needle : String) : Bool :=
  charsInfix needle.data haystack.data

/-- Split a character list at every occurrence of `c`
(`String.prototype.split` with a one-character separator). -/
def splitOnCharAux (c : Char) : List Char → List Char → List (List Char)
  | [], acc => [acc.reverse]
  | x :: xs, acc =>
      if x = c then acc.reverse :: splitOnCharAux c xs []
      else splitOnCharAux c xs (x :: acc)

/-- Splitting `s.split(c)` for a one-character separator. -/
def jsSplit (s : String) (c : Char) : List String :=
  (splitOnCharAux c s.data []).map String.mk

/-- Model of `parseInt(s, 10)` on the digit strings the engine parses
(dotted-quad components and CIDR prefix lengths): the value of the
leading decimal-digit prefix, `none` modelling `NaN` when there is none. -/
def jsParseInt (s : String) : Option Int :=
  let ds := s.data.takeWhile Char.isDigit
  if ds.isEmpty then none
  else some (Int.ofNat (ds.foldl (fun acc c => acc * 10 + (c.toNat - 48)) 0))

/-- ECMAScript `ToUint32`. -/
def toUint32 (n : Int) : Int := n % 4294967296

/-- ECMAScript `ToInt32`. -/
def toInt32 (n : Int) : Int :=
  let r := n % 4294967296
  if r < 2147483648 then r else r - 4294967296

/-- Bitwise AND of the low `fuel` bits of two naturals (structural, so the
kernel can evaluate it). -/
def natAndBits : Nat → Nat → Nat → Nat
  | 0, _, _ => 0
  | fuel + 1, a, b =>
      (if a % 2 = 1 ∧ b % 2 = 1 then 1 else 0) + 2 * natAndBits fuel (a / 2) (b / 2)

/-- JS `a & b`: both operands pass through `ToInt32`; the 32-bit AND is
taken on their unsigned representations and read back as signed. -/
def int32And (a b : Int) : Int :=
  toInt32 (Int.ofNat (natAndBits 32 (toUint32 a).toNat (toUint32 b).toNat))

/-- JS `a << s` for a nonnegative shift count: the count is taken mod 32,
the operand through `ToInt32`, the result read back as signed. -/
def jsShl (a : Int) (s : Nat) : Int :=
  toInt32 (toInt32 a * (2 : Int) ^ (s % 32))

/-! ## Static IP denylist (utils.js lines 70-83, 371-430) -/

/-- Source constant `blacklistSystem.knownMaliciousIPs`. -/
def knownMaliciousIPs : List String :=
  [ "154.28.229.126", "152.32.99.64", "107.150.22.208", "54.189.230.128", "154.28.229.253",
    "154.28.229.224", "154.28.229.172", "154.28.229.108", "154.28.229.11", "154.28.229.18",
    "154.28.229.20", "154.28.229.1", "154.28.229.140", "154.28.229.111", "154.28.229.49",
    "154.28.229.145", "154.28.229.242", "104.164.173.222", "104.164.173.206", "104.164.173.128" ]

/-- Source constant `blacklistSystem.blockedIPRanges`. -/
def blockedIPRanges : List String :=
  [ "104.164.173.0/24", "154.28.229.0/24" ]

/-- Embedding of `blacklistSystem.ipToInt`:
`(parts[0] << 24) + (parts[1] << 16) + (parts[2] << 8) + parts[3]`.
A missing or non-numeric shifted component contributes 0 (`ToInt32` of
`NaN`/`undefined`); a missing or non-numeric last component makes the
whole sum `NaN`, modelled as `none`. -/
def ipToInt (ip : String) : Option Int :=
  let parts := (jsSplit ip '.').map jsParseInt
  let shTerm : Nat → Nat → Int := fun i s => jsShl ((parts.getD i none).getD 0) s
  match parts.getD 3 none with
  | none => none
  | some p3 => some (shTerm 0 24 + shTerm 1 16 + shTerm 2 8 + p3)

/-- The mask `(0xFFFFFFFF << (32 - prefix)) >>> 0`; a `NaN` prefix makes
the shift count `ToUint32(NaN) & 31 = 0`. -/
def maskFromPrefixLen (p : Option Int) : Int :=
  match p with
  | none => toUint32 (jsShl 4294967295 0)
  | some n => toUint32 (jsShl 4294967295 (toUint32 (32 - n)).toNat)

/-- Embedding of `blacklistSystem.isIPInRange`: split the CIDR at `/`, build the mask
from the declared prefix length, compare `ipInt & mask === rangeInt & mask`
(`ToInt32` of a `NaN` address is 0). -/
def isIPInRange (ip cidr : String) : Bool :=
  let parts := jsSplit cidr '/'
  let rangeIP := parts.getD 0 ""
  let plen : Option Int :=
    match parts.get? 1 with
    | some s => jsParseInt s
    | none => none
  let mask := maskFromPrefixLen plen
  int32And ((ipToInt ip).getD 0) mask == int32And ((ipToInt rangeIP).getD 0) mask

/-- Embedding of `blacklistSystem.isIPBlocked`: falsy input is never blocked; then an
exact match against `knownMaliciousIPs`, then any `blockedIPRanges` hit. -/
def isIPBlocked (ip : String) : Bool :=
  if ip = "" then false
  else if knownMaliciousIPs.contains ip then true
  else blockedIPRanges.any (fun range => isIPInRange ip range)

/-! ## Ledger data model (utils.js lines 85-116, 599-732) -/

/-- One element of the `reasons` array of a FailureRecord:
`{reason, timestamp}`. -/
structure ReasonEntry where
  reason : String
  timestamp : Nat
  deriving DecidableEq, Repr

/-- Shape of `blacklistSystem.failedAttempts[clientId]`:
`{count, reasons, firstAttempt}`. -/
structure FailureRecord where
  count : Nat
  reasons : List ReasonEntry
  firstAttempt : Nat
  deriving DecidableEq, Repr

/-- A persisted blacklist entry: `{added, expires, reasons}`. -/
structure BlacklistEntry where
  added : Nat
  expires : Nat
  reasons : List ReasonEntry
  deriving DecidableEq, Repr

/-- Lookup `obj[k]` on a JS object modelled as a key-value list. -/
def getKey {α : Type} : List (String × α) → String → Option α
  | [], _ => none
  | p :: rest, k => if p.1 = k then some p.2 else getKey rest k

/-- Assignment `obj[k] = v`: replace the value at an existing key in place, append
a fresh key at the end. -/
def setKey {α : Type} : List (String × α) → String → α → List (String × α)
  | [], k, v => [(k, v)]
  | p :: rest, k, v =>
      if p.1 = k then (k, v) :: rest else p :: setKey rest k v

/-- Deletion `delete obj[k]`. -/
def delKey {α : Type} : List (String × α) → String → List (String × α)
  | [], _ => []
  | p :: rest, k =>
      if p.1 = k then delKey rest k else p :: delKey rest k

/-- Shape of `blacklistSystem.thresholds`. -/
structure Thresholds where
  maxFailedAttempts : Nat
  blacklistDuration : Nat
  deriving Repr

/-- The source threshold constants: 3 failed attempts, 24-hour block. -/
def thresholds : Thresholds :=
  { maxFailedAttempts := 3, blacklistDuration := 86400 }

/-- The mutable state of `blacklistSystem` together with the
`localStorage` keys it owns.  `storageOk = false` models a storage layer
whose every read and write throws (quota/unavailability);
`blacklist`/`storedFailedAttempts` are the parsed contents of the
`captcha_blacklist` and `captcha_failed_attempts` keys, `failedAttempts`
and `blacklistedIPs` live only on the in-memory object. -/
structure LedgerState where
  storageOk : Bool
  blacklist : List (String × BlacklistEntry)
  storedFailedAttempts : List (String × FailureRecord)
  failedAttempts : List (String × FailureRecord)
  blacklistedIPs : List String
  visitorIP : Option String
  deriving DecidableEq, Repr

/-- Model of reading and JSON-parsing the persisted blacklist key
(`getItem` with an empty-object default): throws when storage is
unavailable. -/
def lsGetBlacklist (st : LedgerState) : Except Unit (List (String × BlacklistEntry)) :=
  if st.storageOk then .ok st.blacklist else .error ()

/-- Model of writing the persisted blacklist key via `setItem`: throws
when storage is unavailable. -/
def lsSetBlacklist (st : LedgerState) (bl : List (String × BlacklistEntry)) :
    Except Unit LedgerState :=
  if st.storageOk then .ok { st with blacklist := bl } else .error ()

/-- Model of writing the persisted failed-attempts key via `setItem`. -/
def lsSetFailedAttempts (st : LedgerState) (fa : List (String × FailureRecord)) :
    Except Unit LedgerState :=
  if st.storageOk then .ok { st with storedFailedAttempts := fa } else .error ()

/-! ## Ledger operations -/

/-- Embedding of `blacklistSystem.isClientBlacklisted` (utils.js lines 599-606):
`!!blacklist[clientId] && blacklist[clientId].expires > Date.now()`,
with the `try/catch` returning `false` on a storage failure. -/
def isClientBlacklisted (st : LedgerState) (now : Nat) (clientId : String) : Bool :=
  match (do
      let bl ← lsGetBlacklist st
      pure (match getKey bl clientId with
            | some e => decide (now < e.expires)
            | none => false) : Except Unit Bool) with
  | .ok b => b
  | .error _ => false

/-- Embedding of `blacklistSystem.addToBlacklist` (utils.js lines 651-670): read the
persisted map, store `{added: now, expires: now + blacklistDuration*1000,
reasons}`, write it back, then push onto the runtime `blacklistedIPs`
list; the `try/catch` leaves the state unchanged if storage throws
(the read throws first, so nothing at all happens). -/
def addToBlacklist (st : LedgerState) (now : Nat) (clientId : String)
    (reasons : List ReasonEntry) : LedgerState :=
  match (do
      let bl ← lsGetBlacklist st
      let bl2 := setKey bl clientId
        { added := now, expires := now + thresholds.blacklistDuration * 1000,
          reasons := reasons }
      let st2 ← lsSetBlacklist st bl2
      pure { st2 with blacklistedIPs := st2.blacklistedIPs ++ [clientId] } :
      Except Unit LedgerState) with
  | .ok s => s
  | .error _ => st

/-- Embedding of `blacklistSystem.saveFailedAttempts` (utils.js lines 698-704): its own
`try/catch` swallows a storage failure. -/
def saveFailedAttempts (st : LedgerState) : LedgerState :=
  match lsSetFailedAttempts st st.failedAttempts with
  | .ok s => s
  | .error _ => st

/-- Embedding of `blacklistSystem.recordFailedAttempt` (utils.js lines 613-644) with the
client identifier passed explicitly (the source derives it from the
environment via `getClientIdentifier`): initialise the in-memory record if
absent, increment `count` and append the reason, promote to the blacklist
and discard the record when `count >= maxFailedAttempts`, then persist the
failed-attempt map.  Every storage access below it catches its own
failures, so the outer `try/catch` is unreachable. -/
def recordFailedAttempt (st : LedgerState) (now : Nat) (clientId : String)
    (reason : String) : LedgerState :=
  let r0 := (getKey st.failedAttempts clientId).getD
    { count := 0, reasons := [], firstAttempt := now }
  let r1 : FailureRecord :=
    { count := r0.count + 1,
      reasons := r0.reasons ++ [{ reason := reason, timestamp := now }],
      firstAttempt := r0.firstAttempt }
  let st1 := { st with failedAttempts := setKey st.failedAttempts clientId r1 }
  let st2 :=
    if thresholds.maxFailedAttempts ≤ r1.count then
      let s := addToBlacklist st1 now clientId r1.reasons
      { s with failedAttempts := delKey s.failedAttempts clientId }
    else st1
  saveFailedAttempts st2

/-- The deletion loop of `cleanupExpiredEntries`: drop every entry with
`expires < now`. -/
def removeExpired (now : Nat) : List (String × BlacklistEntry) → List (String × BlacklistEntry)
  | [] => []
  | p :: rest =>
      if p.2.expires < now then removeExpired now rest
      else p :: removeExpired now rest

/-- Embedding of `blacklistSystem.cleanupExpiredEntries` (utils.js lines 709-732): read
the persisted map, delete every entry whose `expires` lies strictly in the
past, and only when something was deleted write the map back and refresh
the runtime `blacklistedIPs` key list; a storage failure is swallowed by
the `try/catch`. -/
def cleanupExpiredEntries (st : LedgerState) (now : Nat) : LedgerState :=
  match (do
      let bl ← lsGetBlacklist st
      let bl2 := removeExpired now bl
      let modified := bl.any (fun p => decide (p.2.expires < now))
      if modified then
        let st2 ← lsSetBlacklist st bl2
        pure { st2 with blacklistedIPs := bl2.map Prod.fst }
      else
        pure st : Except Unit LedgerState) with
  | .ok s => s
  | .error _ => st

/-! ## Decision Facade: `checkBlacklist` (utils.js lines 459-519) -/

/-- Source constant `blacklistSystem.knownBotSignatures`. -/
def knownBotSignatures : List String :=
  [ "googlebot", "bingbot", "yandexbot", "slurp", "duckduckbot", "baiduspider",
    "bytespider", "facebookexternalhit", "twitterbot", "rogerbot", "linkedinbot",
    "embedly", "quora link preview", "showyoubot", "outbrain", "pinterest",
    "slackbot", "vkshare", "w3c_validator", "postman", "curl", "wget", "python-requests",
    "ahrefs", "semrushbot", "mj12bot", "applebot", "dotbot", "zoominfobot",
    "scanner", "crawler", "spider", "headless", "scraper", "selenium", "webdriver",
    "puppeteer", "phantom", "nightmare", "jsdom" ]

/-- Source constant `blacklistSystem.securityTools`. -/
def securityTools : List String :=
  [ "avast", "avg", "avira", "bitdefender", "kaspersky", "mcafee", "norton",
    "eset", "f-secure", "trend micro", "sophos", "symantec", "trustwave", "forcepoint",
    "checkpoint", "barracuda", "mimecast", "proofpoint", "fireeye", "crowdstrike",
    "cyren", "spamhaus", "spamcop", "netcraft", "virustotal", "sucuri", "urlscan",
    "zscaler", "office365", "microsoft-security", "cisco", "forcepoint", "cofense" ]

/-- The ambient browser facts `checkBlacklist` and
`hasTooManySuspiciousPatterns` read: the user-agent string, whether
`window.chrome` / `window.InstallTrigger` are defined, whether a freshly
raised `Error` carries a textual `stack`, and the value
`getClientIdentifier()` derives from the environment. -/
structure BrowserEnv where
  userAgent : String
  chromeDefined : Bool
  installTriggerDefined : Bool
  errorStackOk : Bool
  clientId : String
  deriving DecidableEq, Repr

/-- Result object of `checkBlacklist`: blocked flag, reason, confidence. -/
structure CheckResult where
  blocked : Bool
  reason : Option String
  confidence : ℚ
  deriving DecidableEq, Repr

/-- Truthiness of `this.visitorIP` (`null`/empty string are falsy). -/
def visitorIPTruthy (st : LedgerState) : Bool :=
  match st.visitorIP with
  | some ip => ip ≠ ""
  | none => false

/-- Embedding of `blacklistSystem.checkBlacklist` (utils.js lines 459-519), returning
the result object and the updated system state.  Order of evaluation:
visitor-IP static block (records `"blocked_ip_" + ip`), two or more bot
signatures in the lower-cased user agent (records
`"known_bot_useragent"`), any security-tool signature (records
`"security_tool_detected"`), then the persisted client blacklist — which
records nothing. -/
def checkBlacklist (env : BrowserEnv) (st : LedgerState) (now : Nat) :
    CheckResult × LedgerState :=
  if visitorIPTruthy st ∧ isIPBlocked ((st.visitorIP).getD "") = true then
    (⟨true, some "blocked_ip", 9/10⟩,
      recordFailedAttempt st now env.clientId ("blocked_ip_" ++ (st.visitorIP).getD ""))
  else
    let ua := jsToLower env.userAgent
    let botScore := (knownBotSignatures.filter (fun sig => jsIncludes ua sig)).length
    if 2 ≤ botScore then
      (⟨true, some "known_bot", 9/10⟩,
        recordFailedAttempt st now env.clientId "known_bot_useragent")
    else if securityTools.any (fun tool => jsIncludes ua tool) then
      (⟨true, some "security_tool", 9/10⟩,
        recordFailedAttempt st now env.clientId "security_tool_detected")
    else if isClientBlacklisted st now env.clientId then
      (⟨true, some "blacklisted", 9/10⟩, st)
    else
      (⟨false, none, 0⟩, st)

/-! ## Suspicious Pattern Evaluator (utils.js lines 740-776) -/

/-- Source configuration object `blacklistSystem.suspiciousPatterns`.  Only
`mismatchedUA` and `tamperedDOM` are read by
`hasTooManySuspiciousPatterns`. -/
structure SuspiciousPatterns where
  noFonts : Bool
  noCanvas : Bool
  noWebGL : Bool
  mismatchedUA : Bool
  spoofedLanguages : Bool
  noStorage : Bool
  inconsistentFeatures : Bool
  tooBluetooth : Bool
  tooNetwork : Bool
  tamperedDOM : Bool
  perfectConsistency : Bool
  allPluginsDisabled : Bool
  unusualTimezone : Bool
  deriving DecidableEq, Repr

/-- The source configuration: every flag activated. -/
def suspiciousPatternsDefault : SuspiciousPatterns :=
  ⟨true, true, true, true, true, true, true, true, true, true, true, true, true⟩

/-- The counters accumulated by `hasTooManySuspiciousPatterns`. -/
structure SuspicionCounts where
  suspiciousCount : Nat
  totalChecks : Nat
  deriving DecidableEq, Repr

/-- The counting phase of `hasTooManySuspiciousPatterns`: under
`mismatchedUA`, a Chrome user agent without `window.chrome` adds one and a
Firefox user agent without `window.InstallTrigger` adds another, with a
single `totalChecks` increment; under `tamperedDOM`, a missing or
non-string `Error.stack` (or a throwing `Error` constructor) adds one
with one `totalChecks` increment. -/
def suspicionCounts (cfg : SuspiciousPatterns) (env : BrowserEnv) : SuspicionCounts :=
  let s0 : Nat := 0
  let t0 : Nat := 0
  let (s1, t1) :=
    if cfg.mismatchedUA then
      let ua := jsToLower env.userAgent
      let sa := s0 + (if jsIncludes ua "chrome" ∧ ¬env.chromeDefined then 1 else 0)
      let sb := sa + (if jsIncludes ua "firefox" ∧ ¬env.installTriggerDefined then 1 else 0)
      (sb, t0 + 1)
    else (s0, t0)
  let (s2, t2) :=
    if cfg.tamperedDOM then
      (s1 + (if env.errorStackOk then 0 else 1), t1 + 1)
    else (s1, t1)
  { suspiciousCount := s2, totalChecks := t2 }

/-- A fingerprint object as passed (and ignored) by the evaluator. -/
structure Fingerprint where
  components : List (String × String)
  digest : String
  deriving DecidableEq, Repr

set_option linter.unusedVariables false in
/-- Embedding of `blacklistSystem.hasTooManySuspiciousPatterns` (utils.js lines
740-776): `totalChecks > 0 && (suspiciousCount / totalChecks) > 0.3`.
The reachable ratios (denominator at most 2) make the exact rational
comparison agree with the binary floating-point one of the source. -/
def hasTooManySuspiciousPatterns (cfg : SuspiciousPatterns) (env : BrowserEnv)
    (fingerprint : Fingerprint) : Bool :=
  let c := suspicionCounts cfg env
  decide (0 < c.totalChecks) &&
    decide ((3 : ℚ)/10 < (c.suspiciousCount : ℚ) / (c.totalChecks : ℚ))

/-! ## Automation Detector (fragment-handler.js lines 643-719) -/

/-- The environment facts `detectAutomation` reads. -/
structure AutoEnv where
  webdriverTrue : Bool
  userAgent : String
  callPhantomIsFunction : Bool
  underscorePhantomIsObject : Bool
  phantomIsObject : Bool
  seleniumAttr : Bool
  webdriverAttr : Bool
  driverAttr : Bool
  pluginsLength : Nat
  languagesLength : Option Nat
  chromeTruthy : Bool
  onTouchStartInWindow : Bool
  maxTouchPoints : Nat
  deriving DecidableEq, Repr

/-- Result object of `detectAutomation`. -/
structure AutomationResults where
  webdriver : Bool
  headlessUserAgent : Bool
  phantomJS : Bool
  seleniumAttrs : Bool
  noPlugins : Bool
  automationScore : ℚ
  deriving DecidableEq, Repr

/-- Embedding of `detectAutomation` (fragment-handler.js lines 643-719): sequential
weighted accumulation — `navigator.webdriver === true` (+3), a
`headless`/`phantomjs` substring in the lower-cased user agent (+2), a
PhantomJS global (+3), a `selenium`/`webdriver`/`driver` attribute on the
root element (+3), zero plugins outside the Firefox/Brave/Safari/Edge
exemptions (+0.5); then, only when the score is already positive, a
missing or empty `navigator.languages` (+0.5), a Chrome user agent
without a truthy `window.chrome` (+1), and a `mobile` user agent without
touch support (+0.5). -/
def detectAutomation (env : AutoEnv) : AutomationResults :=
  let score0 : ℚ := 0
  let (webdriver, score1) :=
    if env.webdriverTrue then (true, score0 + 3) else (false, score0)
  let ua := jsToLower env.userAgent
  let (headlessUserAgent, score2) :=
    if jsIncludes ua "headless" || jsIncludes ua "phantomjs" then (true, score1 + 2)
    else (false, score1)
  let (phantomJS, score3) :=
    if env.callPhantomIsFunction || env.underscorePhantomIsObject || env.phantomIsObject then
      (true, score2 + 3)
    else (false, score2)
  let (seleniumAttrs, score4) :=
    if env.seleniumAttr || env.webdriverAttr || env.driverAttr then (true, score3 + 3)
    else (false, score3)
  let (noPlugins, score5) :=
    if env.pluginsLength = 0 && !jsIncludes ua "firefox" && !jsIncludes ua "brave" &&
        !jsIncludes ua "safari" && !jsIncludes ua "edge" then
      (true, score4 + 1/2)
    else (false, score4)
  let score6 :=
    if 0 < score5 then
      let s6a := score5 +
        (if env.languagesLength = none ∨ env.languagesLength = some 0 then 1/2 else 0)
      let s6b := s6a + (if jsIncludes ua "chrome" ∧ ¬env.chromeTruthy then 1 else 0)
      let hasTouch := env.onTouchStartInWindow || decide (0 < env.maxTouchPoints)
      s6b + (if jsIncludes ua "mobile" ∧ ¬hasTouch then 1/2 else 0)
    else score5
  { webdriver := webdriver, headlessUserAgent := headlessUserAgent,
    phantomJS := phantomJS, seleniumAttrs := seleniumAttrs,
    noPlugins := noPlugins, automationScore := score6 }

/-- Written from the predicate table of the spec: the weighted sum of the five
primary predicates. -/
def specAutomationPrimaryScore (env : AutoEnv) : ℚ :=
  let ua := jsToLower env.userAgent
  (if env.webdriverTrue then 3 else 0) +
  (if jsIncludes ua "headless" || jsIncludes ua "phantomjs" then 2 else 0) +
  (if env.callPhantomIsFunction || env.underscorePhantomIsObject || env.phantomIsObject
    then 3 else 0) +
  (if env.seleniumAttr || env.webdriverAttr || env.driverAttr then 3 else 0) +
  (if env.pluginsLength = 0 && !jsIncludes ua "firefox" && !jsIncludes ua "brave" &&
      !jsIncludes ua "safari" && !jsIncludes ua "edge" then 1/2 else 0)

/-- Written from the predicate table of the spec: the weighted sum of the three
secondary predicates. -/
def specAutomationSecondaryScore (env : AutoEnv) : ℚ :=
  let ua := jsToLower env.userAgent
  (if env.languagesLength = none ∨ env.languagesLength = some 0 then 1/2 else 0) +
  (if jsIncludes ua "chrome" ∧ ¬env.chromeTruthy then 1 else 0) +
  (if jsIncludes ua "mobile" ∧
      ¬(env.onTouchStartInWindow || decide (0 < env.maxTouchPoints)) = true then 1/2 else 0)

/-! ## Helper functions for stating the claims -/

/-- The current failed-attempt count the ledger holds for a client
(0 when no record exists). -/
def failCount (st : LedgerState) (cid : String) : Nat :=
  ((getKey st.failedAttempts cid).map FailureRecord.count).getD 0

/-! ## Map lemmas -/

theorem getKey_setKey_self {α : Type} (m : List (String × α)) (k : String) (v : α) :
    getKey (setKey m k v) k = some v := by
  induction m with
  | nil => simp [setKey, getKey]
  | cons p rest ih =>
      by_cases h : p.1 = k
      · simp [setKey, getKey, h]
      · simp [setKey, getKey, h, ih]

theorem getKey_setKey_ne {α : Type} (m : List (String × α)) (k k' : String) (v : α)
    (h : k' ≠ k) : getKey (setKey m k v) k' = getKey m k' := by
  induction m with
  | nil => simp [setKey, getKey, Ne.symm h]
  | cons p rest ih =>
      by_cases hp : p.1 = k
      · subst hp
        simp [setKey, getKey, Ne.symm h]
      · simp only [setKey, if_neg hp, getKey]
        by_cases hp' : p.1 = k'
        · simp [hp']
        · simp [hp', ih]

theorem getKey_delKey_self {α : Type} (m : List (String × α)) (k : String) :
    getKey (delKey m k) k = none := by
  induction m with
  | nil => simp [delKey, getKey]
  | cons p rest ih =>
      by_cases h : p.1 = k
      · simp [delKey, h, ih]
      · simp [delKey, getKey, h, ih]

/-! ## Characterizations of the ledger operations -/

theorem saveFailedAttempts_eq (st : LedgerState) :
    saveFailedAttempts st =
      { st with storedFailedAttempts :=
          if st.storageOk then st.failedAttempts else st.storedFailedAttempts } := by
  obtain ⟨sok, bl, sfa, fa, bip, vip⟩ := st
  cases sok <;> simp [saveFailedAttempts, lsSetFailedAttempts]

theorem addToBlacklist_eq (st : LedgerState) (now : Nat) (cid : String)
    (rs : List ReasonEntry) :
    addToBlacklist st now cid rs =
      if st.storageOk then
        { st with
            blacklist := setKey st.blacklist cid
              { added := now, expires := now + thresholds.blacklistDuration * 1000,
                reasons := rs },
            blacklistedIPs := st.blacklistedIPs ++ [cid] }
      else st := by
  obtain ⟨sok, bl, sfa, fa, bip, vip⟩ := st
  cases sok <;>
    simp [addToBlacklist, lsGetBlacklist, lsSetBlacklist, Bind.bind, Except.bind,
      pure, Except.pure]

theorem isClientBlacklisted_eq (st : LedgerState) (now : Nat) (cid : String) :
    isClientBlacklisted st now cid =
      if st.storageOk then
        (match getKey st.blacklist cid with
         | some e => decide (now < e.expires)
         | none => false)
      else false := by
  cases h : st.storageOk <;>
    simp [isClientBlacklisted, lsGetBlacklist, h, Bind.bind, Except.bind,
      pure, Except.pure]

theorem getD_count_eq_failCount (st : LedgerState) (cid : String) (n : Nat) :
    ((getKey st.failedAttempts cid).getD
      { count := 0, reasons := [], firstAttempt := n }).count = failCount st cid := by
  cases h : getKey st.failedAttempts cid <;> simp [failCount, h]

/-- Closed form of `recordFailedAttempt`, separating the four cases
(promotion reached or not, storage available or not). -/
theorem recordFailedAttempt_eq (st : LedgerState) (n : Nat) (cid r : String) :
    recordFailedAttempt st n cid r =
      (let c := failCount st cid
       let r0 := (getKey st.failedAttempts cid).getD
         { count := 0, reasons := [], firstAttempt := n }
       let rs := r0.reasons ++ [{ reason := r, timestamp := n }]
       let fa1 := setKey st.failedAttempts cid
         { count := c + 1, reasons := rs, firstAttempt := r0.firstAttempt }
       if thresholds.maxFailedAttempts ≤ c + 1 then
         if st.storageOk then
           { st with
               blacklist := setKey st.blacklist cid
                 { added := n, expires := n + thresholds.blacklistDuration * 1000,
                   reasons := rs },
               blacklistedIPs := st.blacklistedIPs ++ [cid],
               failedAttempts := delKey fa1 cid,
               storedFailedAttempts := delKey fa1 cid }
         else { st with failedAttempts := delKey fa1 cid }
       else
         if st.storageOk then
           { st with failedAttempts := fa1, storedFailedAttempts := fa1 }
         else { st with failedAttempts := fa1 }) := by
  simp only [recordFailedAttempt, addToBlacklist_eq, saveFailedAttempts_eq,
    getD_count_eq_failCount]
  by_cases hth : thresholds.maxFailedAttempts ≤ failCount st cid + 1 <;>
    cases hok : st.storageOk <;>
      simp [hth, hok]

/-- Behavior of `recordFailedAttempt` below the promotion threshold: the in-memory
record for the client is bumped by one and the blacklist is untouched. -/
theorem recordFailedAttempt_below (st : LedgerState) (n : Nat) (cid r : String)
    (h : failCount st cid + 1 < thresholds.maxFailedAttempts) :
    (recordFailedAttempt st n cid r).blacklist = st.blacklist
    ∧ (recordFailedAttempt st n cid r).storageOk = st.storageOk
    ∧ failCount (recordFailedAttempt st n cid r) cid = failCount st cid + 1 := by
  rw [recordFailedAttempt_eq]
  have hth : ¬ thresholds.maxFailedAttempts ≤ failCount st cid + 1 := by omega
  simp only [if_neg hth]
  cases hok : st.storageOk <;>
    simp [hok, failCount, getKey_setKey_self]

/-- Behavior of `recordFailedAttempt` at the promotion threshold with working
storage: a blacklist entry expiring `blacklistDuration * 1000`
milliseconds later is created and the failure record is discarded. -/
theorem recordFailedAttempt_promote (st : LedgerState) (n : Nat) (cid r : String)
    (hok : st.storageOk = true)
    (h : thresholds.maxFailedAttempts ≤ failCount st cid + 1) :
    (∃ e, getKey (recordFailedAttempt st n cid r).blacklist cid = some e
          ∧ e.expires = n + thresholds.blacklistDuration * 1000)
    ∧ getKey (recordFailedAttempt st n cid r).failedAttempts cid = none
    ∧ (recordFailedAttempt st n cid r).storageOk = true := by
  rw [recordFailedAttempt_eq]
  simp [h, hok, getKey_setKey_self, getKey_delKey_self]

theorem removeExpired_eq_filter (now : Nat) (l : List (String × BlacklistEntry)) :
    removeExpired now l = l.filter (fun p => !decide (p.2.expires < now)) := by
  induction l with
  | nil => simp [removeExpired]
  | cons p rest ih =>
      by_cases h : p.2.expires < now <;> simp [removeExpired, h, ih]

theorem removeExpired_any_false (now : Nat) (l : List (String × BlacklistEntry)) :
    (removeExpired now l).any (fun p => decide (p.2.expires < now)) = false := by
  induction l with
  | nil => simp [removeExpired]
  | cons p rest ih =>
      by_cases h : p.2.expires < now <;> simp [removeExpired, h, ih]

theorem removeExpired_of_any_false (now : Nat) (l : List (String × BlacklistEntry))
    (h : l.any (fun p => decide (p.2.expires < now)) = false) :
    removeExpired now l = l := by
  induction l with
  | nil => simp [removeExpired]
  | cons p rest ih =>
      simp only [List.any_cons, Bool.or_eq_false_iff] at h
      simp [removeExpired, ih h.2, of_decide_eq_false h.1]

theorem cleanupExpiredEntries_eq (st : LedgerState) (now : Nat) :
    cleanupExpiredEntries st now =
      if st.storageOk then
        (if st.blacklist.any (fun p => decide (p.2.expires < now)) then
          { st with blacklist := removeExpired now st.blacklist,
                    blacklistedIPs := (removeExpired now st.blacklist).map Prod.fst }
        else st)
      else st := by
  by_cases hm : st.blacklist.any (fun p => decide (p.2.expires < now)) <;>
    cases hok : st.storageOk <;>
      simp [cleanupExpiredEntries, lsGetBlacklist, lsSetBlacklist, hm, hok,
        Bind.bind, Except.bind, pure, Except.pure]

/-! ## The claims -/

/-- C1: for every client with no pending failure record and no blacklist
entry, calling `recordFailedAttempt` exactly `maxFailedAttempts` (= 3)
times creates a blacklist entry for that client and deletes its failure
record, while calling it only twice creates no blacklist entry. -/
theorem claim_C1 (st : LedgerState) (cid r1 r2 r3 : String) (n1 n2 n3 : Nat)
    (hok : st.storageOk = true)
    (hfa : getKey st.failedAttempts cid = none)
    (hbl : getKey st.blacklist cid = none) :
    ((∃ e, getKey (recordFailedAttempt (recordFailedAttempt
        (recordFailedAttempt st n1 cid r1) n2 cid r2) n3 cid r3).blacklist cid = some e)
     ∧ getKey (recordFailedAttempt (recordFailedAttempt
        (recordFailedAttempt st n1 cid r1) n2 cid r2) n3 cid r3).failedAttempts cid = none)
    ∧ getKey (recordFailedAttempt
        (recordFailedAttempt st n1 cid r1) n2 cid r2).blacklist cid = none := by
  have h0 : failCount st cid = 0 := by simp [failCount, hfa]
  obtain ⟨hbl1, hok1, hc1⟩ := recordFailedAttempt_below st n1 cid r1
    (by rw [h0]; decide)
  obtain ⟨hbl2, hok2, hc2⟩ := recordFailedAttempt_below
    (recordFailedAttempt st n1 cid r1) n2 cid r2 (by rw [hc1, h0]; decide)
  have hok2' : (recordFailedAttempt
      (recordFailedAttempt st n1 cid r1) n2 cid r2).storageOk = true := by
    rw [hok2, hok1, hok]
  have hcnt : thresholds.maxFailedAttempts ≤ failCount
      (recordFailedAttempt (recordFailedAttempt st n1 cid r1) n2 cid r2) cid + 1 := by
    rw [hc2, hc1, h0]; decide
  obtain ⟨hex, hfa3, -⟩ := recordFailedAttempt_promote _ n3 cid r3 hok2' hcnt
  refine ⟨⟨?_, hfa3⟩, ?_⟩
  · obtain ⟨e, he, -⟩ := hex
    exact ⟨e, he⟩
  · rw [hbl2, hbl1, hbl]

/-- C1 witness: a fresh client on an empty working-store state, three
failures at times 1, 2, 3. -/
theorem claim_C1_witness :
    ((∃ e, getKey (recordFailedAttempt (recordFailedAttempt (recordFailedAttempt
        ⟨true, [], [], [], [], none⟩ 1 "c" "x") 2 "c" "x") 3 "c" "x").blacklist "c" = some e)
     ∧ getKey (recordFailedAttempt (recordFailedAttempt (recordFailedAttempt
        ⟨true, [], [], [], [], none⟩ 1 "c" "x") 2 "c" "x") 3 "c" "x").failedAttempts "c" = none)
    ∧ getKey (recordFailedAttempt (recordFailedAttempt
        ⟨true, [], [], [], [], none⟩ 1 "c" "x") 2 "c" "x").blacklist "c" = none :=
  claim_C1 ⟨true, [], [], [], [], none⟩ "c" "x" "x" "x" 1 2 3 rfl rfl rfl

/-- C2 counterexample: at the instant `now = expiresAt` the code returns
`false` (it tests `expires > Date.now()`, strictly), refuting the claim
"at the instant `now = expiresAt` it still returns true": here an entry
for `"c"` exists with `expiresAt = 1000 ≤ now = 1000`, yet
`isClientBlacklisted` is `false`. -/
theorem claim_C2_counterexample :
    getKey (LedgerState.blacklist ⟨true, [("c", ⟨0, 1000, []⟩)], [], [], [], none⟩) "c"
      = some ⟨0, 1000, []⟩
    ∧ (1000 : Nat) ≤ 1000
    ∧ isClientBlacklisted ⟨true, [("c", ⟨0, 1000, []⟩)], [], [], [], none⟩ 1000 "c"
      = false := by
  decide

/-- C2 (amended): with working storage, `isClientBlacklisted` returns
true iff an entry exists for the client and `now < expiresAt` — strictly;
at the instant `now = expiresAt` the entry is already treated as
absent. -/
theorem claim_C2 (st : LedgerState) (now : Nat) (cid : String)
    (hok : st.storageOk = true) :
    isClientBlacklisted st now cid = true ↔
      ∃ e, getKey st.blacklist cid = some e ∧ now < e.expires := by
  rw [isClientBlacklisted_eq, if_pos hok]
  cases h : getKey st.blacklist cid <;> simp [h]

/-- C2 witness: one entry expiring at 1000, read at 999. -/
theorem claim_C2_witness :
    (LedgerState.storageOk ⟨true, [("c", ⟨0, 1000, []⟩)], [], [], [], none⟩ = true)
    ∧ isClientBlacklisted ⟨true, [("c", ⟨0, 1000, []⟩)], [], [], [], none⟩ 999 "c"
      = true :=
  ⟨rfl, (claim_C2 ⟨true, [("c", ⟨0, 1000, []⟩)], [], [], [], none⟩ 999 "c" rfl).mpr
    ⟨⟨0, 1000, []⟩, rfl, by decide⟩⟩

/-- C8: with working storage, `cleanupExpiredEntries` leaves exactly the
entries with `expiresAt ≥ now` (removing exactly those with
`expiresAt < now`, all others unchanged), and running it a second time at
the same instant changes nothing at all. -/
theorem claim_C8 (st : LedgerState) (now : Nat) (hok : st.storageOk = true) :
    (cleanupExpiredEntries st now).blacklist
        = st.blacklist.filter (fun p => !decide (p.2.expires < now))
    ∧ cleanupExpiredEntries (cleanupExpiredEntries st now) now
        = cleanupExpiredEntries st now := by
  constructor
  · rw [cleanupExpiredEntries_eq, if_pos hok]
    by_cases hm : st.blacklist.any (fun p => decide (p.2.expires < now))
    · simp [hm, removeExpired_eq_filter]
    · rw [if_neg hm, ← removeExpired_eq_filter,
        removeExpired_of_any_false now _ (by simpa using hm)]
  · rw [cleanupExpiredEntries_eq st now, if_pos hok]
    by_cases hm : st.blacklist.any (fun p => decide (p.2.expires < now))
    · rw [if_pos hm, cleanupExpiredEntries_eq]
      simp [hok, removeExpired_any_false]
    · rw [if_neg hm, cleanupExpiredEntries_eq, if_pos hok, if_neg hm]

/-- C8 witness: two entries, one expired at time 10. -/
theorem claim_C8_witness :
    (LedgerState.storageOk
        ⟨true, [("a", ⟨0, 5, []⟩), ("b", ⟨0, 100, []⟩)], [], [], [], none⟩ = true)
    ∧ ((cleanupExpiredEntries
          ⟨true, [("a", ⟨0, 5, []⟩), ("b", ⟨0, 100, []⟩)], [], [], [], none⟩ 10).blacklist
        = (LedgerState.blacklist
            ⟨true, [("a", ⟨0, 5, []⟩), ("b", ⟨0, 100, []⟩)], [], [], [], none⟩).filter
            (fun p => !decide (p.2.expires < 10))
       ∧ cleanupExpiredEntries (cleanupExpiredEntries
            ⟨true, [("a", ⟨0, 5, []⟩), ("b", ⟨0, 100, []⟩)], [], [], [], none⟩ 10) 10
        = cleanupExpiredEntries
            ⟨true, [("a", ⟨0, 5, []⟩), ("b", ⟨0, 100, []⟩)], [], [], [], none⟩ 10) :=
  ⟨rfl, claim_C8 ⟨true, [("a", ⟨0, 5, []⟩), ("b", ⟨0, 100, []⟩)], [], [], [], none⟩ 10 rfl⟩

/-- C9 counterexample: with storage unavailable for the whole session, the
third `recordFailedAttempt` does take the promotion path — the failure
record for `"c"` is discarded — yet the subsequent `isClientBlacklisted`
call reports `false`: there is no in-memory fallback for blacklist reads,
refuting "still reported as blacklisted ... via the in-memory fallback
ledger". -/
theorem claim_C9_counterexample :
    getKey (recordFailedAttempt (recordFailedAttempt (recordFailedAttempt
      ⟨false, [], [], [], [], none⟩ 1 "c" "x") 2 "c" "x") 3 "c" "x").failedAttempts "c"
      = none
    ∧ isClientBlacklisted (recordFailedAttempt (recordFailedAttempt (recordFailedAttempt
      ⟨false, [], [], [], [], none⟩ 1 "c" "x") 2 "c" "x") 3 "c" "x") 4 "c" = false := by
  decide

/-- C9 (amended): when every storage access throws, no ledger operation
raises — each returns its catch-branch fallback: `isClientBlacklisted`
returns `false`, `recordFailedAttempt` still accumulates the in-memory
failure count and leaves the persisted blacklist untouched, and
`cleanupExpiredEntries` is a no-op; but a client promoted during such a
session is NOT reported as blacklisted afterwards. -/
theorem claim_C9 (st : LedgerState) (now : Nat) (cid r : String)
    (hfail : st.storageOk = false) :
    isClientBlacklisted st now cid = false
    ∧ (recordFailedAttempt st now cid r).blacklist = st.blacklist
    ∧ (recordFailedAttempt st now cid r).storageOk = false
    ∧ (failCount st cid + 1 < thresholds.maxFailedAttempts →
        failCount (recordFailedAttempt st now cid r) cid = failCount st cid + 1)
    ∧ cleanupExpiredEntries st now = st := by
  refine ⟨?_, ?_, ?_, ?_, ?_⟩
  · simp [isClientBlacklisted_eq, hfail]
  · rw [recordFailedAttempt_eq]
    by_cases hth : thresholds.maxFailedAttempts ≤ failCount st cid + 1 <;>
      simp [hth, hfail]
  · rw [recordFailedAttempt_eq]
    by_cases hth : thresholds.maxFailedAttempts ≤ failCount st cid + 1 <;>
      simp [hth, hfail]
  · intro h
    exact (recordFailedAttempt_below st now cid r h).2.2
  · simp [cleanupExpiredEntries_eq, hfail]

/-- C9 witness: one failure on an empty storage-dead state. -/
theorem claim_C9_witness :
    (LedgerState.storageOk ⟨false, [], [], [], [], none⟩ = false)
    ∧ (isClientBlacklisted ⟨false, [], [], [], [], none⟩ 1 "c" = false
       ∧ (recordFailedAttempt ⟨false, [], [], [], [], none⟩ 1 "c" "x").blacklist
          = (LedgerState.blacklist ⟨false, [], [], [], [], none⟩)
       ∧ (recordFailedAttempt ⟨false, [], [], [], [], none⟩ 1 "c" "x").storageOk = false
       ∧ (failCount ⟨false, [], [], [], [], none⟩ "c" + 1 < thresholds.maxFailedAttempts →
           failCount (recordFailedAttempt ⟨false, [], [], [], [], none⟩ 1 "c" "x") "c"
             = failCount ⟨false, [], [], [], [], none⟩ "c" + 1)
       ∧ cleanupExpiredEntries ⟨false, [], [], [], [], none⟩ 1
          = ⟨false, [], [], [], [], none⟩) :=
  ⟨rfl, claim_C9 ⟨false, [], [], [], [], none⟩ 1 "c" "x" rfl⟩

/-- C3 counterexample: a state whose client is already blacklisted and an
otherwise clean environment make `checkBlacklist` return the deny reason
`blacklisted` while leaving the system state — in particular the failure
ledger — completely unchanged: the `blacklisted` deny path never calls
`recordFailedAttempt`, refuting the claim for that reason. -/
theorem claim_C3_counterexample :
    (checkBlacklist ⟨"abc", true, true, true, "c"⟩
        ⟨true, [("c", ⟨0, 2000, []⟩)], [], [], [], none⟩ 1000).1.reason
      = some "blacklisted"
    ∧ (checkBlacklist ⟨"abc", true, true, true, "c"⟩
        ⟨true, [("c", ⟨0, 2000, []⟩)], [], [], [], none⟩ 1000).2
      = ⟨true, [("c", ⟨0, 2000, []⟩)], [], [], [], none⟩ := by
  decide

/-- C3 (amended): the dynamic deny verdicts `known_bot` and
`security_tool` call `recordFailedAttempt` (with reasons
`known_bot_useragent` and `security_tool_detected`), but the
`blacklisted` deny verdict does not — it returns the state unchanged, so
no failure accumulates on that path. -/
theorem claim_C3 (env : BrowserEnv) (st : LedgerState) (now : Nat) :
    ((checkBlacklist env st now).1.reason = some "known_bot" →
      (checkBlacklist env st now).2
        = recordFailedAttempt st now env.clientId "known_bot_useragent")
    ∧ ((checkBlacklist env st now).1.reason = some "security_tool" →
      (checkBlacklist env st now).2
        = recordFailedAttempt st now env.clientId "security_tool_detected")
    ∧ ((checkBlacklist env st now).1.reason = some "blacklisted" →
      (checkBlacklist env st now).2 = st) := by
  by_cases h1 : visitorIPTruthy st = true ∧ isIPBlocked ((st.visitorIP).getD "") = true
  · simp [checkBlacklist, h1]
  · by_cases h2 : 2 ≤ (knownBotSignatures.filter
        (fun sig => jsIncludes (jsToLower env.userAgent) sig)).length
    · simp [checkBlacklist, h1, h2]
    · by_cases h3 : securityTools.any
          (fun tool => jsIncludes (jsToLower env.userAgent) tool) = true
      · simp [checkBlacklist, h1, h2, h3]
      · by_cases h4 : isClientBlacklisted st now env.clientId = true
        · simp [checkBlacklist, h1, h2, h3, h4]
        · simp [checkBlacklist, h1, h2, h3, h4]

/-- C3 witness: a user agent carrying two bot signatures (`curl`, `wget`)
takes the `known_bot` path and records a failure. -/
theorem claim_C3_witness :
    (checkBlacklist ⟨"curl wget", true, true, true, "c"⟩
        ⟨true, [], [], [], [], none⟩ 5).1.reason = some "known_bot"
    ∧ (checkBlacklist ⟨"curl wget", true, true, true, "c"⟩
        ⟨true, [], [], [], [], none⟩ 5).2
      = recordFailedAttempt ⟨true, [], [], [], [], none⟩ 5 "c" "known_bot_useragent" :=
  ⟨by decide,
   (claim_C3 ⟨"curl wget", true, true, true, "c"⟩ ⟨true, [], [], [], [], none⟩ 5).1
     (by decide)⟩

/-- C4: the verdict is "too suspicious" iff `checkedCount > 0` and
`suspiciousCount / checkedCount > 0.3`; with zero enabled checks no
division is reached (`totalChecks = 0` short-circuits the conjunction)
and the verdict is "not suspicious". -/
theorem claim_C4 :
    (∀ (cfg : SuspiciousPatterns) (env : BrowserEnv) (fp : Fingerprint),
      hasTooManySuspiciousPatterns cfg env fp = true ↔
        (0 < (suspicionCounts cfg env).totalChecks ∧
         (3 : ℚ)/10 < ((suspicionCounts cfg env).suspiciousCount : ℚ)
            / ((suspicionCounts cfg env).totalChecks : ℚ)))
    ∧ (∀ (cfg : SuspiciousPatterns) (env : BrowserEnv) (fp : Fingerprint),
        cfg.mismatchedUA = false → cfg.tamperedDOM = false →
        (suspicionCounts cfg env).totalChecks = 0
        ∧ hasTooManySuspiciousPatterns cfg env fp = false) := by
  constructor
  · intro cfg env fp
    simp [hasTooManySuspiciousPatterns]
  · intro cfg env fp h1 h2
    refine ⟨by simp [suspicionCounts, h1, h2], ?_⟩
    simp [hasTooManySuspiciousPatterns, suspicionCounts, h1, h2]

/-- C4 witness: a configuration with every check disabled yields zero
checks and a "not suspicious" verdict. -/
theorem claim_C4_witness :
    (SuspiciousPatterns.mismatchedUA
        ⟨false, false, false, false, false, false, false, false, false, false,
         false, false, false⟩ = false)
    ∧ (SuspiciousPatterns.tamperedDOM
        ⟨false, false, false, false, false, false, false, false, false, false,
         false, false, false⟩ = false)
    ∧ ((suspicionCounts
          ⟨false, false, false, false, false, false, false, false, false, false,
           false, false, false⟩ ⟨"ua", true, true, true, "c"⟩).totalChecks = 0
       ∧ hasTooManySuspiciousPatterns
          ⟨false, false, false, false, false, false, false, false, false, false,
           false, false, false⟩ ⟨"ua", true, true, true, "c"⟩ ⟨[], "d"⟩ = false) :=
  ⟨rfl, rfl,
   claim_C4.2
     ⟨false, false, false, false, false, false, false, false, false, false,
      false, false, false⟩ ⟨"ua", true, true, true, "c"⟩ ⟨[], "d"⟩ rfl rfl⟩

/-- C5 counterexample: with both checks enabled, a user agent containing
both `chrome` and `firefox` while `window.chrome` and
`window.InstallTrigger` are absent and `Error.stack` is broken gives
`suspiciousCount = 3 > totalChecks = 2`: the identity-mismatch check
contributed two, refuting "each check contributes at most one, so
suspiciousCount never exceeds checkedCount". -/
theorem claim_C5_counterexample :
    (suspicionCounts suspiciousPatternsDefault
        ⟨"chrome firefox", false, false, false, "c"⟩).suspiciousCount = 3
    ∧ (suspicionCounts suspiciousPatternsDefault
        ⟨"chrome firefox", false, false, false, "c"⟩).totalChecks = 2
    ∧ ¬((suspicionCounts suspiciousPatternsDefault
          ⟨"chrome firefox", false, false, false, "c"⟩).suspiciousCount
        ≤ (suspicionCounts suspiciousPatternsDefault
            ⟨"chrome firefox", false, false, false, "c"⟩).totalChecks) := by
  decide

/-- C5 (amended): each enabled check increments `checkedCount` by exactly
one, but the identity-mismatch check can contribute up to two to
`suspiciousCount` (one per browser family), so the invariant is
`suspiciousCount ≤ 2 * checkedCount` and
`suspiciousCount ≤ checkedCount + 1` — the ratio can exceed 1. -/
theorem claim_C5 (cfg : SuspiciousPatterns) (env : BrowserEnv) :
    (suspicionCounts cfg env).totalChecks
        = (if cfg.mismatchedUA then 1 else 0) + (if cfg.tamperedDOM then 1 else 0)
    ∧ (suspicionCounts cfg env).suspiciousCount
        ≤ 2 * (suspicionCounts cfg env).totalChecks
    ∧ (suspicionCounts cfg env).suspiciousCount
        ≤ (suspicionCounts cfg env).totalChecks + 1 := by
  simp only [suspicionCounts]
  by_cases h1 : cfg.mismatchedUA <;> by_cases h2 : cfg.tamperedDOM <;>
    simp [h1, h2] <;> split_ifs <;> omega

/-- C6: the automation score is the weighted sum of the true primary
predicates, plus the secondary contributions exactly when the primary sum
is already positive; the function applies no threshold — it returns the
raw score. -/
theorem claim_C6 (env : AutoEnv) :
    (detectAutomation env).automationScore =
      specAutomationPrimaryScore env +
        (if 0 < specAutomationPrimaryScore env then specAutomationSecondaryScore env
         else 0) := by
  by_cases h1 : env.webdriverTrue = true <;>
  by_cases h2 : (jsIncludes (jsToLower env.userAgent) "headless"
      || jsIncludes (jsToLower env.userAgent) "phantomjs") = true <;>
  by_cases h3 : (env.callPhantomIsFunction || env.underscorePhantomIsObject
      || env.phantomIsObject) = true <;>
  by_cases h4 : (env.seleniumAttr || env.webdriverAttr || env.driverAttr) = true <;>
  by_cases h5 : (decide (env.pluginsLength = 0)
      && !jsIncludes (jsToLower env.userAgent) "firefox"
      && !jsIncludes (jsToLower env.userAgent) "brave"
      && !jsIncludes (jsToLower env.userAgent) "safari"
      && !jsIncludes (jsToLower env.userAgent) "edge") = true <;>
    simp [detectAutomation, specAutomationPrimaryScore, specAutomationSecondaryScore,
      h1, h2, h3, h4, h5] <;>
    (try split_ifs) <;> norm_num

/-- C7: an IP equal to a static denylist entry, or agreeing with a
configured CIDR base on the masked prefix bits, is blocked; concretely
`104.164.173.50` (inside `104.164.173.0/24`) is blocked and `8.8.8.8` is
not. -/
theorem claim_C7 :
    (∀ ip : String, ip ≠ "" →
      (ip ∈ knownMaliciousIPs ∨ ∃ r ∈ blockedIPRanges, isIPInRange ip r = true) →
      isIPBlocked ip = true)
    ∧ isIPBlocked "104.164.173.50" = true
    ∧ isIPBlocked "8.8.8.8" = false := by
  refine ⟨?_, by decide, by decide⟩
  intro ip hne hm
  unfold isIPBlocked
  rw [if_neg hne]
  rcases hm with hm | ⟨r, hr, hir⟩
  · have hc : knownMaliciousIPs.contains ip = true := by simp [hm]
    rw [if_pos hc]
  · by_cases hc : knownMaliciousIPs.contains ip = true
    · rw [if_pos hc]
    · rw [if_neg hc, List.any_eq_true]
      exact ⟨r, hr, hir⟩

/-- C7 witness: an exact static denylist entry is blocked. -/
theorem claim_C7_witness :
    ("154.28.229.126" : String) ≠ "" ∧ isIPBlocked "154.28.229.126" = true :=
  ⟨by decide, claim_C7.1 "154.28.229.126" (by decide) (Or.inl (by decide))⟩

/-- C10: the suspicion evaluator ignores its fingerprint argument — for
any fixed configuration and ambient environment, any two fingerprints
produce the same verdict. -/
theorem claim_C10 (cfg : SuspiciousPatterns) (env : BrowserEnv)
    (f1 f2 : Fingerprint) :
    hasTooManySuspiciousPatterns cfg env f1 = hasTooManySuspiciousPatterns cfg env f2 :=
  rfl

end MSI
